import Mathlib

/-!
# metrictest: assertion helpers over a metrics client

A shallow embedding of `metrictest.go`.  Go strings are sequences of characters, `float64`
values are IEEE-754 binary64 bit patterns (sign, biased exponent, fraction), `uint64` and `int`
are `Nat` / `Int` with the conversion `uint64(count)` made explicit, and the test reporter `t` is
the log of the `Errorf` calls made on it.  A panic is an explicit outcome.
-/

namespace Metrictest

/-! ## float64 -/

/-- Go `float64`: an IEEE-754 binary64 value given by its three bit fields. -/
structure float64 where
  sign : Bool
  exponent : Fin 2048
  fraction : Fin 4503599627370496
deriving DecidableEq, Repr

namespace float64

/-- Positive zero, the value of the literal `0`. -/
def zero : float64 := ⟨false, 0, 0⟩

/-- Negative zero. -/
def negZero : float64 := ⟨true, 0, 0⟩

/-- The value of the literal `1`. -/
def one : float64 := ⟨false, 1023, 0⟩

/-- A quiet not-a-number, `math.NaN()`. -/
def NaN : float64 := ⟨false, 2047, 2251799813685248⟩

/-- Infinity of the given sign, `math.Inf(±1)`. -/
def Inf (neg : Bool) : float64 := ⟨neg, 2047, 0⟩

/-- Not-a-number: all exponent bits set and a non-zero fraction. -/
def isNaN (x : float64) : Bool := x.exponent.val == 2047 && x.fraction.val != 0

/-- Infinite: all exponent bits set and a zero fraction. -/
def isInf (x : float64) : Bool := x.exponent.val == 2047 && x.fraction.val == 0

/-- Either of the two zeros. -/
def isZero (x : float64) : Bool := x.exponent.val == 0 && x.fraction.val == 0

/-- Go `x == y` on float64: false when either side is NaN, true on the two zeros, otherwise
equality of the bit patterns. -/
def eq (x y : float64) : Bool :=
  if x.isNaN || y.isNaN then false
  else if x.isZero && y.isZero then true
  else decide (x = y)

/-- Go `x != y` on float64, the negation of `==`. -/
def ne (x y : float64) : Bool := !(eq x y)

/-- The exact value of a finite float64 as an integer multiple of `2^-1074`. -/
def scaled (x : float64) : Int :=
  let m : Nat :=
    if x.exponent.val = 0 then x.fraction.val
    else (4503599627370496 + x.fraction.val) * 2 ^ (x.exponent.val - 1)
  if x.sign then -(m : Int) else (m : Int)

/-- Number of binary digits of `n`, by repeated halving (`fuel` bounds the number of steps). -/
def bitLenAux : Nat → Nat → Nat
  | 0, _ => 0
  | fuel + 1, n => if n = 0 then 0 else bitLenAux fuel (n / 2) + 1

/-- Number of binary digits of `n`: `0` for `0`, and `k + 1` when `2^k ≤ n < 2^(k+1)`. -/
def bitLen (n : Nat) : Nat := bitLenAux n n

/-- Round `n * 2^-1074` (with `0 < n`) to the nearest float64, ties to even. -/
def ofScaled (neg : Bool) (n : Nat) : float64 :=
  let sh := bitLen n - 53
  if sh = 0 then
    ⟨neg, ⟨(n / 4503599627370496) % 2048, Nat.mod_lt _ (by decide)⟩,
      ⟨n % 4503599627370496, Nat.mod_lt _ (by decide)⟩⟩
  else
    let q := n / 2 ^ sh
    let r := n % 2 ^ sh
    let half := 2 ^ (sh - 1)
    let q1 := if half < r ∨ (r = half ∧ q % 2 = 1) then q + 1 else q
    let e := sh + q1 / 4503599627370496
    if 2047 ≤ e then Inf neg
    else ⟨neg, ⟨e % 2048, Nat.mod_lt _ (by decide)⟩,
      ⟨q1 % 4503599627370496, Nat.mod_lt _ (by decide)⟩⟩

/-- Go `x + y` on float64 (round to nearest, ties to even). -/
def add (x y : float64) : float64 :=
  if x.isNaN || y.isNaN then NaN
  else if x.isInf then (if y.isInf && (x.sign != y.sign) then NaN else x)
  else if y.isInf then y
  else
    let s := x.scaled + y.scaled
    if s = 0 then (if x.sign && y.sign then negZero else zero)
    else ofScaled (decide (s < 0)) s.natAbs

/-- The float64 nearest to a natural number, as in the conversion `float64(n)`. -/
def ofNat (n : Nat) : float64 :=
  if n = 0 then zero else ofScaled false (n * 2 ^ 1074)

end float64

/-! ## Go strings and the `sumOrCount` regular expression -/

/-- Go `strings.Split(s, sep)` for a separator of one character: the pieces between the
occurrences of `sep`, always at least one piece. -/
def Split (s : List Char) (sep : Char) : List (List Char) := s.splitOn sep

/-- Go `strings.Join(elems, sep)` for a separator of one character. -/
def Join (elems : List (List Char)) (sep : Char) : List Char := [sep].intercalate elems

/-- The fragment of regular-expression syntax used by `sumOrCount`: a literal character, a
character class, concatenation and alternation. -/
inductive Regexp where
  | lit (c : Char)
  | cls (cs : List Char)
  | cat (r s : Regexp)
  | alt (r s : Regexp)

namespace Regexp

/-- All the ways the expression matches at the start of the input: the list of remainders left
after each matched leading part. -/
def step : Regexp → List Char → List (List Char)
  | lit _, [] => []
  | lit c, x :: xs => if x = c then [xs] else []
  | cls _, [] => []
  | cls cs, x :: xs => if x ∈ cs then [xs] else []
  | cat r s, xs => (r.step xs).flatMap s.step
  | alt r s, xs => r.step xs ++ s.step xs

/-- Go `re.MatchString(s)`: the expression matches somewhere in `s` (it is not anchored). -/
def MatchString (re : Regexp) (s : List Char) : Bool :=
  s.tails.any fun t => !(re.step t).isEmpty

/-- The expression matching exactly the characters of `w` in sequence (`w` non-empty). -/
def word : List Char → Regexp
  | [] => cls []
  | [c] => lit c
  | c :: cs => cat (lit c) (word cs)

end Regexp

/-- The opening brace character. -/
def lbrace : Char := Char.ofNat 123

/-- The package variable `sumOrCount = regexp.MustCompile("_(sum|count)[\x7b ]")`. -/
def sumOrCount : Regexp :=
  .cat (.lit '_') (.cat (.alt (Regexp.word "sum".data) (Regexp.word "count".data))
    (.cls [lbrace, ' ']))

/-- The function `filterSampleSumAndCount`: split on newlines, keep (by appending, in order) the
parts the expression matches, join with newlines.  The text is taken as a sequence of
characters; the separator and the expression are ASCII, so this agrees with Go's byte-wise
reading of well-formed text. -/
def filterSampleSumAndCount (expvar : String) : String :=
  let parts := Split expvar.data '\n'
  let newParts := parts.foldl
    (fun (newParts : List (List Char)) p =>
      if sumOrCount.MatchString p then newParts ++ [p] else newParts) []
  String.mk (Join newParts '\n')

/-! ## Formatting -/

/-- Go `int` and `uint64` printed with the verb `%d`: decimal digits, with a leading minus sign
for a negative number. -/
def fmtD (i : Int) : String :=
  if i < 0 then "-" ++ Nat.repr i.natAbs else Nat.repr i.toNat

/-- The two float64 renderings of package `fmt` the assertions use.  They belong to the Go
standard library and are taken as given: `sharpV` is the verb `%#v`, `g` is the verb `%g`. -/
structure Fmt where
  sharpV : float64 → String
  g : float64 → String

/-- The conversion `uint64(count)` of a Go `int`: reduction modulo `2^64`. -/
def uint64 (count : Int) : Nat := (count % 18446744073709551616).toNat

/-! ## The metrics client library

The assertions read instruments of an external metrics client library.  The library is not part
of this repository; the definitions of this section state the parts of its contract that the
assertions rely on. -/

/-- The message `dto.Histogram` (and `dto.Summary`, which has the same two fields as far as the
assertions read them). -/
structure dtoHistogram where
  SampleCount : Nat
  SampleSum : float64
deriving DecidableEq, Repr

/-- The nil-safe getter `GetSampleCount` of a `*dto.Histogram` / `*dto.Summary`. -/
def GetSampleCount : Option dtoHistogram → Nat
  | none => 0
  | some h => h.SampleCount

/-- The nil-safe getter `GetSampleSum` of a `*dto.Histogram` / `*dto.Summary`. -/
def GetSampleSum : Option dtoHistogram → float64
  | none => float64.zero
  | some h => h.SampleSum

/-- The message `dto.Metric`: label pairs and one optional value per metric type. -/
structure dtoMetric where
  Label : List (String × String)
  Gauge : Option float64
  Counter : Option float64
  Summary : Option dtoHistogram
  Untyped : Option float64
  Histogram : Option dtoHistogram
deriving DecidableEq, Repr

/-- A metric descriptor: fully qualified name, help text and the names of the variable labels. -/
structure Desc where
  fqName : String
  help : String
  variableLabels : List String
deriving DecidableEq, Repr

/-- The interface `prometheus.Metric`: a descriptor and the snapshot that `Write` stores into the
message it is given. -/
structure Metric where
  Desc : Desc
  Write : dtoMetric
deriving DecidableEq, Repr

/-- The interface `prometheus.Collector`: the descriptors sent by `Describe` and the metrics
sent, in order, on the channel by `Collect`. -/
structure Collector where
  Describe : List Desc
  Collect : List Metric
deriving DecidableEq, Repr

/-- A single instrument (counter, gauge, histogram, summary) is its own collector: it describes
and collects itself. -/
def Metric.asCollector (m : Metric) : Collector := ⟨[m.Desc], [m]⟩

/-- The four kinds of instrument a vector can hold. -/
inductive Kind where
  | counter
  | gauge
  | histogram
  | summary
deriving DecidableEq, Repr

/-- The snapshot of an instrument of the given kind that has never been touched: value zero,
or no observation and sum zero. -/
def Kind.zero (k : Kind) (labels : List (String × String)) : dtoMetric :=
  match k with
  | .counter => ⟨labels, none, some float64.zero, none, none, none⟩
  | .gauge => ⟨labels, some float64.zero, none, none, none, none⟩
  | .histogram => ⟨labels, none, none, none, none, some ⟨0, float64.zero⟩⟩
  | .summary => ⟨labels, none, none, some ⟨0, float64.zero⟩, none, none⟩

/-- A vector instrument (`CounterVec`, `GaugeVec`, `HistogramVec`, `SummaryVec`): a descriptor and
the children created so far, keyed by their label values. -/
structure MetricVec (k : Kind) where
  desc : Desc
  metrics : List (List String × Metric)
deriving DecidableEq, Repr

/-- The type `*prometheus.CounterVec`. -/
abbrev CounterVec := MetricVec Kind.counter
/-- The type `*prometheus.GaugeVec`. -/
abbrev GaugeVec := MetricVec Kind.gauge
/-- The type `*prometheus.HistogramVec`. -/
abbrev HistogramVec := MetricVec Kind.histogram
/-- The type `*prometheus.SummaryVec`. -/
abbrev SummaryVec := MetricVec Kind.summary

namespace MetricVec

/-- A vector collects every child it holds. -/
def asCollector {k : Kind} (v : MetricVec k) : Collector :=
  ⟨[v.desc], v.metrics.map Prod.snd⟩

/-- The child a vector creates for label values it has not seen. -/
def newMetric {k : Kind} (v : MetricVec k) (lvs : List String) : Metric :=
  ⟨v.desc, k.zero (v.desc.variableLabels.zip lvs)⟩

/-- The error text of a label lookup with the wrong number of label values. -/
def errInconsistentCardinality : String := "inconsistent label cardinality"

/-- Modelled from the spec: the library method `GetMetricWithLabelValues` is not part of this
repository.  It resolves "the child series via exact label-set match" (§4.3); a label
combination "never observed" yields a child whose "value is implicitly zero", which the library
creates and stores in the vector; a number of label values different from the number of label
names is a lookup error.  The result is the child together with the vector after the call
(a later `ToExpVar` of the vector sees a child the lookup has created).  Label values are
well-formed text. -/
def GetMetricWithLabelValues {k : Kind} (v : MetricVec k) (lvs : List String) :
    Except String (Metric × MetricVec k) :=
  if lvs.length ≠ v.desc.variableLabels.length then .error errInconsistentCardinality
  else
    match v.metrics.lookup lvs with
    | some m => .ok (m, v)
    | none => .ok (v.newMetric lvs, ⟨v.desc, v.metrics ++ [(lvs, v.newMetric lvs)]⟩)

end MetricVec

/-- Modelled from the spec: the library function `testutil.ToFloat64` is not part of this
repository.  It is the scalar "Collector Drain" of §2 and §4.1: it collects the metrics of the
collector, panics "if zero or more than one value is produced", and returns the value of the one
metric, which must be a gauge, a counter or an untyped metric.  An error result is the value of
the panic. -/
def ToFloat64 (c : Collector) : Except String float64 :=
  match c.Collect with
  | [m] =>
    match m.Write.Gauge, m.Write.Counter, m.Write.Untyped with
    | some v, _, _ => .ok v
    | none, some v, _ => .ok v
    | none, none, some v => .ok v
    | none, none, none => .error "collected a non-gauge/counter/untyped metric"
  | ms => .error ("collected " ++ Nat.repr ms.length ++ " metrics instead of exactly 1")

/-- The registry and the text encoder behind `ToExpVar`, taken as given: `Register` is the error
(if any) of registering the collector with a fresh pedantic registry, `Gather` the metric
families that registry then gathers (or its error), `Encode` the text the encoder writes for one
family (or its error). -/
structure Registry (MF : Type) where
  Register : Collector → Option String
  Gather : Collector → Except String (List MF)
  Encode : MF → Except String String

/-! ## The test reporter -/

/-- The interface `TestingT`, as the log of the format strings passed to `Errorf`, oldest
first.  Every call in this package passes the finished message as the format and no further
argument.  (The optional `Helper()` call has no effect on the log and is left out.) -/
abbrev TestingT := List String

/-- One call `t.Errorf(format)`. -/
def TestingT.Errorf (t : TestingT) (format : String) : TestingT := t ++ [format]

/-- How an assertion ends: it returns, or it panics with a value; either way with the reporter
as the calls made so far have left it. -/
inductive Outcome where
  | returned (t : TestingT)
  | panicked (t : TestingT) (v : String)
deriving DecidableEq, Repr

/-- The reporter at the end of the call. -/
def Outcome.t : Outcome → TestingT
  | .returned t => t
  | .panicked t _ => t

/-! ## metrictest.go -/

/-- The message of a scalar mismatch in `AssertCounter` and `AssertGauge`. -/
def notEqualMsg (f : Fmt) (expected actual : float64) : String :=
  "Not equal:\nexpected: " ++ f.sharpV expected ++ "\nactual  : " ++ f.sharpV actual

/-- The message of a scalar mismatch in `assertVec`, which ends with the exposition. -/
def notEqualVecMsg (f : Fmt) (expected actual : float64) (expvar : String) : String :=
  "Not equal:\nexpected: " ++ f.sharpV expected ++ "\nactual  : " ++ f.sharpV actual
    ++ "\n\nmetric:\n" ++ expvar

/-- The message of a sample-count mismatch in `AssertHistogramSamples` and
`AssertSummarySamples`. -/
def countMsg (count : Int) (actualCount : Nat) : String :=
  "Sample count not equal:\nexpected: " ++ fmtD count ++ "\nactual  : " ++ fmtD actualCount

/-- The message of a sample-sum mismatch in `AssertHistogramSamples` and
`AssertSummarySamples`. -/
def sumMsg (f : Fmt) (sum actualSum : float64) : String :=
  "Sample sum not equal:\nexpected: " ++ f.g sum ++ "\nactual  : " ++ f.g actualSum

/-- The message of a sample-count mismatch in `assertHistogramVec`. -/
def countVecMsg (count : Int) (actualCount : Nat) (expvar : String) : String :=
  "Sample count not equal:\nexpected: " ++ fmtD count ++ "\nactual  : " ++ fmtD actualCount
    ++ "\n\nmetric:\n" ++ expvar

/-- The message of a sample-sum mismatch in `assertHistogramVec`. -/
def sumVecMsg (f : Fmt) (sum actualSum : float64) (expvar : String) : String :=
  "Sample sum not equal:\nexpected: " ++ f.g sum ++ "\nactual  : " ++ f.g actualSum
    ++ "\n\nmetric:\n" ++ expvar

/-- The function `AssertCounter`. -/
def AssertCounter (f : Fmt) (t : TestingT) (expected : float64) (counter : Collector) :
    Outcome :=
  match ToFloat64 counter with
  | .error v => .panicked t v
  | .ok actual =>
    if float64.ne actual expected then .returned (t.Errorf (notEqualMsg f expected actual))
    else .returned t

/-- The function `AssertGauge`. -/
def AssertGauge (f : Fmt) (t : TestingT) (expected : float64) (gauge : Collector) : Outcome :=
  match ToFloat64 gauge with
  | .error v => .panicked t v
  | .ok actual =>
    if float64.ne actual expected then .returned (t.Errorf (notEqualMsg f expected actual))
    else .returned t

/-- The encoding loop of `ToExpVar`: the families are written to the buffer one after the other,
and the first error ends the function with an empty string and that error. -/
def encodeAll {MF : Type} (reg : Registry MF) : List MF → String → String × Option String
  | [], buf => (buf, none)
  | mf :: rest, buf =>
    match reg.Encode mf with
    | .error err => ("", some err)
    | .ok text => encodeAll reg rest (buf ++ text)

/-- The function `ToExpVar`; the result is the pair `(string, error)`. -/
def ToExpVar {MF : Type} (reg : Registry MF) (c : Collector) : String × Option String :=
  match reg.Register c with
  | some err => ("", some ("registering collector failed: " ++ err))
  | none =>
    match reg.Gather c with
    | .error err => ("", some err)
    | .ok metricFamilies => encodeAll reg metricFamilies ""

/-- The exposition attached to a failure: `expvar, err := ToExpVar(c)` followed by
`if err != nil \x7b expvar = err.Error() \x7d`. -/
def expvarOrError {MF : Type} (reg : Registry MF) (c : Collector) : String :=
  match ToExpVar reg c with
  | (_, some err) => err
  | (expvar, none) => expvar

/-- The function `assertVec`. -/
def assertVec {MF : Type} (f : Fmt) (reg : Registry MF) (t : TestingT) (expected : float64)
    (metric : Collector) (vec : Collector) : Outcome :=
  match ToFloat64 metric with
  | .error v => .panicked t v
  | .ok actual =>
    if float64.eq actual expected then .returned t
    else
      let expvar := expvarOrError reg vec
      .returned (t.Errorf (notEqualVecMsg f expected actual expvar))

/-- The function `AssertCounterVec`. -/
def AssertCounterVec {MF : Type} (f : Fmt) (reg : Registry MF) (t : TestingT)
    (expected : float64) (counterVec : CounterVec) (labels : List String) : Outcome :=
  match counterVec.GetMetricWithLabelValues labels with
  | .error err => .returned (t.Errorf err)
  | .ok (m, counterVec) => assertVec f reg t expected m.asCollector counterVec.asCollector

/-- The function `AssertGaugeVec`. -/
def AssertGaugeVec {MF : Type} (f : Fmt) (reg : Registry MF) (t : TestingT)
    (expected : float64) (gaugeVec : GaugeVec) (labels : List String) : Outcome :=
  match gaugeVec.GetMetricWithLabelValues labels with
  | .error err => .returned (t.Errorf err)
  | .ok (m, gaugeVec) => assertVec f reg t expected m.asCollector gaugeVec.asCollector

/-- The function `collectOne`: the receiving loop keeps the last metric and counts them; any
count other than one is a panic (the error result), otherwise the metric is written into a
fresh message, which is returned. -/
def collectOne (c : Collector) : Except String dtoMetric :=
  let received := c.Collect.foldl
    (fun (acc : Option Metric × Nat) m => (some m, acc.2 + 1)) (none, 0)
  let count := received.2
  if count ≠ 1 then
    .error ("expected to collect 1 metric, but got " ++ fmtD count)
  else
    match received.1 with
    | some m => .ok m.Write
    | none => .error "invalid memory address or nil pointer dereference"

/-- The function `AssertHistogramSamples`. -/
def AssertHistogramSamples (f : Fmt) (t : TestingT) (count : Int) (sum : float64)
    (histogram : Collector) : Outcome :=
  match collectOne histogram with
  | .error v => .panicked t v
  | .ok metric =>
    let actualCount := GetSampleCount metric.Histogram
    let actualSum := GetSampleSum metric.Histogram
    if actualCount ≠ uint64 count then
      .returned (t.Errorf (countMsg count actualCount))
    else if float64.ne actualSum sum then
      .returned (t.Errorf (sumMsg f sum actualSum))
    else .returned t

/-- The function `AssertSummarySamples`. -/
def AssertSummarySamples (f : Fmt) (t : TestingT) (count : Int) (sum : float64)
    (summary : Collector) : Outcome :=
  match collectOne summary with
  | .error v => .panicked t v
  | .ok metric =>
    let actualCount := GetSampleCount metric.Summary
    let actualSum := GetSampleSum metric.Summary
    if actualCount ≠ uint64 count then
      .returned (t.Errorf (countMsg count actualCount))
    else if float64.ne actualSum sum then
      .returned (t.Errorf (sumMsg f sum actualSum))
    else .returned t

/-- The function `assertHistogramVec`. -/
def assertHistogramVec {MF : Type} (f : Fmt) (reg : Registry MF) (t : TestingT) (count : Int)
    (actualCount : Nat) (sum : float64) (actualSum : float64) (c : Collector) : TestingT :=
  if actualCount = uint64 count ∧ float64.eq actualSum sum = true then t
  else
    let expvar := expvarOrError reg c
    let expvar := filterSampleSumAndCount expvar
    let t := if actualCount ≠ uint64 count then
      t.Errorf (countVecMsg count actualCount expvar) else t
    let t := if float64.ne actualSum sum then
      t.Errorf (sumVecMsg f sum actualSum expvar) else t
    t

/-- The function `AssertHistogramVecSamples`. -/
def AssertHistogramVecSamples {MF : Type} (f : Fmt) (reg : Registry MF) (t : TestingT)
    (count : Int) (sum : float64) (histogramVec : HistogramVec) (labels : List String) :
    Outcome :=
  match histogramVec.GetMetricWithLabelValues labels with
  | .error err => .returned (t.Errorf err)
  | .ok (m, histogramVec) =>
    match collectOne m.asCollector with
    | .error v => .panicked t v
    | .ok metric =>
      let actualCount := GetSampleCount metric.Histogram
      let actualSum := GetSampleSum metric.Histogram
      .returned (assertHistogramVec f reg t count actualCount sum actualSum
        histogramVec.asCollector)

/-- The function `AssertSummaryVecSamples`. -/
def AssertSummaryVecSamples {MF : Type} (f : Fmt) (reg : Registry MF) (t : TestingT)
    (count : Int) (sum : float64) (summaryVec : SummaryVec) (labels : List String) :
    Outcome :=
  match summaryVec.GetMetricWithLabelValues labels with
  | .error err => .returned (t.Errorf err)
  | .ok (m, summaryVec) =>
    match collectOne m.asCollector with
    | .error v => .panicked t v
    | .ok metric =>
      let actualCount := GetSampleCount metric.Summary
      let actualSum := GetSampleSum metric.Summary
      .returned (assertHistogramVec f reg t count actualCount sum actualSum
        summaryVec.asCollector)

/-! ## A concrete collaborator, for evaluating the assertions on examples -/

/-- What `%g` and `%#v` print for a NaN, an infinity, and an integer of magnitude below `10^6`
(plain decimal digits); every other value is shown as a question mark. -/
def renderFloat (x : float64) : String :=
  if x.isNaN then "NaN"
  else if x.isInf then (if x.sign then "-Inf" else "+Inf")
  else
    let n := x.scaled.natAbs
    if n % 2 ^ 1074 = 0 ∧ n / 2 ^ 1074 < 1000000 then
      (if x.sign then "-" else "") ++ Nat.repr (n / 2 ^ 1074)
    else "?"

/-- The renderings used on examples. -/
def goFmt : Fmt := ⟨renderFloat, renderFloat⟩

/-- A label block of the text exposition format, empty when there is no label. -/
def renderLabels (labels : List (String × String)) : String :=
  if labels = [] then ""
  else "\x7b" ++ ",".intercalate (labels.map fun kv => kv.1 ++ "=\"" ++ kv.2 ++ "\"") ++ "\x7d"

/-- One sample line of the text exposition format. -/
def renderSample (name suffix : String) (labels : List (String × String)) (value : String) :
    String :=
  name ++ suffix ++ renderLabels labels ++ " " ++ value ++ "\n"

/-- The sample lines of one metric in the text exposition format. -/
def renderMetric (m : Metric) : String :=
  let name := m.Desc.fqName
  let pb := m.Write
  match pb.Gauge, pb.Counter, pb.Summary, pb.Histogram with
  | some v, _, _, _ => renderSample name "" pb.Label (renderFloat v)
  | none, some v, _, _ => renderSample name "" pb.Label (renderFloat v)
  | none, none, some s, _ =>
    renderSample name "_sum" pb.Label (renderFloat s.SampleSum)
      ++ renderSample name "_count" pb.Label (Nat.repr s.SampleCount)
  | none, none, none, some h =>
    renderSample name "_bucket" (pb.Label ++ [("le", "+Inf")]) (Nat.repr h.SampleCount)
      ++ renderSample name "_sum" pb.Label (renderFloat h.SampleSum)
      ++ renderSample name "_count" pb.Label (Nat.repr h.SampleCount)
  | none, none, none, none => ""

/-- The type name of a metric in the text exposition format. -/
def typeName (m : Metric) : String :=
  match m.Write.Gauge, m.Write.Counter, m.Write.Summary, m.Write.Histogram with
  | some _, _, _, _ => "gauge"
  | none, some _, _, _ => "counter"
  | none, none, some _, _ => "summary"
  | none, none, none, some _ => "histogram"
  | none, none, none, none => "untyped"

/-- A registry that accepts every collector, gathers its metrics as one family and encodes the
family as a HELP line, a TYPE line and the sample lines of each metric. -/
def textRegistry : Registry (List Metric) where
  Register := fun _ => none
  Gather := fun c => .ok (if c.Collect = [] then [] else [c.Collect])
  Encode := fun ms =>
    match ms with
    | [] => .ok ""
    | m :: _ =>
      .ok ("# HELP " ++ m.Desc.fqName ++ " " ++ m.Desc.help ++ "\n"
        ++ "# TYPE " ++ m.Desc.fqName ++ " " ++ typeName m ++ "\n"
        ++ String.join (ms.map renderMetric))

/-- A counter with the given value. -/
def counterOf (name : String) (v : float64) : Metric :=
  ⟨⟨name, "", []⟩, ⟨[], none, some v, none, none, none⟩⟩

/-- A gauge with the given value. -/
def gaugeOf (name : String) (v : float64) : Metric :=
  ⟨⟨name, "", []⟩, ⟨[], some v, none, none, none, none⟩⟩

/-- A histogram that has recorded `n` observations summing to `s`. -/
def histogramOf (name : String) (n : Nat) (s : float64) : Metric :=
  ⟨⟨name, "", []⟩, ⟨[], none, none, none, none, some ⟨n, s⟩⟩⟩

/-- A summary that has recorded `n` observations summing to `s`. -/
def summaryOf (name : String) (n : Nat) (s : float64) : Metric :=
  ⟨⟨name, "", []⟩, ⟨[], none, none, some ⟨n, s⟩, none, none⟩⟩

/-- The descriptor of the vectors of the test file: labels `hero` and `villain`. -/
def heroDesc (name : String) : Desc := ⟨name, "", ["hero", "villain"]⟩

/-- The counter vector of `TestAssertCounterVec`: two children, with values 2 and 100. -/
def testCounterVec : CounterVec :=
  ⟨heroDesc "test_counter_vec",
    [(["batman", "joker"], ⟨heroDesc "test_counter_vec",
        ⟨[("hero", "batman"), ("villain", "joker")], none, some (float64.ofNat 2), none, none,
          none⟩⟩),
     (["superman", "lex luthor"], ⟨heroDesc "test_counter_vec",
        ⟨[("hero", "superman"), ("villain", "lex luthor")], none, some (float64.ofNat 100),
          none, none, none⟩⟩)]⟩

/-- The histogram vector of `TestAssertHistogramVecSamples`: a child with two observations
summing to 30 and a child with one observation of 10. -/
def testHistogramVec : HistogramVec :=
  ⟨heroDesc "test_histogram",
    [(["batman", "joker"], ⟨heroDesc "test_histogram",
        ⟨[("hero", "batman"), ("villain", "joker")], none, none, none, none,
          some ⟨2, float64.ofNat 30⟩⟩⟩),
     (["superman", "lex luthor"], ⟨heroDesc "test_histogram",
        ⟨[("hero", "superman"), ("villain", "lex luthor")], none, none, none, none,
          some ⟨1, float64.ofNat 10⟩⟩⟩)]⟩

/-! ## Specification-side notions for the filter -/

/-- A line mentions a sum or count series: it contains `_sum` or `_count` immediately followed
by an opening brace or a space. -/
def mentionsSumOrCount (line : List Char) : Prop :=
  ∃ w ∈ ["_sum".data, "_count".data], ∃ c ∈ [lbrace, ' '], (w ++ [c]) <:+: line

instance (line : List Char) : Decidable (mentionsSumOrCount line) := by
  unfold mentionsSumOrCount; infer_instance

/-- The filter in the words of its description: the lines that mention a sum or count series,
in their order, joined by newlines. -/
def specFilterSumAndCount (s : String) : String :=
  String.mk ([ '\n' ].intercalate ((s.data.splitOn '\n').filter fun l => mentionsSumOrCount l))

/-- The series name of an exposition line: "the text before the label block or value". -/
def seriesName (line : List Char) : List Char :=
  line.takeWhile fun c => c != lbrace && !c.isWhitespace

/-- The series name of the line ends in `_sum` or `_count` and something (a label block or
whitespace, by the definition of the series name) follows it. -/
def seriesNameEndsInSumOrCount (line : List Char) : Bool :=
  ("_sum".data.isSuffixOf (seriesName line) || "_count".data.isSuffixOf (seriesName line))
    && decide ((seriesName line).length < line.length)

/-- The lines of an output text; the empty text has no line. -/
def outputLines (out : String) : List (List Char) :=
  if out.data = [] then [] else Split out.data '\n'

/-! ## Lemmas on the filter -/

theorem foldl_keep {α : Type} (p : α → Bool) (l init : List α) :
    l.foldl (fun acc x => if p x then acc ++ [x] else acc) init = init ++ l.filter p := by
  induction l generalizing init with
  | nil => simp
  | cons x xs ih =>
    simp only [List.foldl_cons, List.filter_cons]
    by_cases h : p x
    · simp [h, ih]
    · simp [h, ih]

namespace Regexp

theorem mem_step_lit (c : Char) (xs rest : List Char) :
    rest ∈ (lit c).step xs ↔ xs = c :: rest := by
  cases xs with
  | nil => simp [step]
  | cons x xs =>
    by_cases h : x = c
    · simp [step, h, eq_comm]
    · simp [step, h]

theorem mem_step_cls (cs xs rest : List Char) :
    rest ∈ (cls cs).step xs ↔ ∃ x ∈ cs, xs = x :: rest := by
  cases xs with
  | nil => simp [step]
  | cons x xs =>
    by_cases h : x ∈ cs
    · simp only [step, h, if_true, List.mem_singleton, List.cons.injEq]
      constructor
      · rintro rfl; exact ⟨x, h, rfl, rfl⟩
      · rintro ⟨y, _, _, h2⟩; exact h2.symm
    · simp only [step, h, if_false, List.not_mem_nil, List.cons.injEq, false_iff]
      rintro ⟨y, hy, rfl, _⟩; exact h hy

theorem mem_step_cat (r s : Regexp) (xs rest : List Char) :
    rest ∈ (cat r s).step xs ↔ ∃ mid ∈ r.step xs, rest ∈ s.step mid := by
  simp [step, List.mem_flatMap]

theorem mem_step_alt (r s : Regexp) (xs rest : List Char) :
    rest ∈ (alt r s).step xs ↔ rest ∈ r.step xs ∨ rest ∈ s.step xs := by
  simp [step]

theorem mem_step_word (w : List Char) (hw : w ≠ []) (xs rest : List Char) :
    rest ∈ (word w).step xs ↔ xs = w ++ rest := by
  induction w generalizing xs with
  | nil => exact absurd rfl hw
  | cons c cs ih =>
    cases cs with
    | nil => simp [word, mem_step_lit]
    | cons d ds =>
      simp only [word, mem_step_cat, mem_step_lit]
      constructor
      · rintro ⟨mid, rfl, h⟩
        rw [(ih (by simp) mid).mp h]; rfl
      · intro h
        exact ⟨d :: ds ++ rest, h, (ih (by simp) _).mpr rfl⟩

end Regexp

theorem mem_step_sumOrCount (xs rest : List Char) :
    rest ∈ sumOrCount.step xs ↔
      ∃ w ∈ ["_sum".data, "_count".data], ∃ c ∈ [lbrace, ' '], xs = (w ++ [c]) ++ rest := by
  have h1 : "sum".data ≠ [] := by decide
  have h2 : "count".data ≠ [] := by decide
  simp only [sumOrCount, Regexp.mem_step_cat, Regexp.mem_step_lit, Regexp.mem_step_alt,
    Regexp.mem_step_word _ h1, Regexp.mem_step_word _ h2, Regexp.mem_step_cls]
  constructor
  · rintro ⟨mid, rfl, mid2, h | h, c, hc, rfl⟩
    · exact ⟨"_sum".data, by simp, c, hc, by rw [h]; rfl⟩
    · exact ⟨"_count".data, by simp, c, hc, by rw [h]; rfl⟩
  · rintro ⟨w, hw, c, hc, rfl⟩
    simp only [List.mem_cons, List.mem_singleton, List.not_mem_nil, or_false] at hw
    rcases hw with rfl | rfl
    · exact ⟨"sum".data ++ c :: rest, rfl, c :: rest, Or.inl rfl, c, hc, rfl⟩
    · exact ⟨"count".data ++ c :: rest, rfl, c :: rest, Or.inr rfl, c, hc, rfl⟩

theorem MatchString_sumOrCount (l : List Char) :
    sumOrCount.MatchString l = true ↔ mentionsSumOrCount l := by
  unfold Regexp.MatchString mentionsSumOrCount
  rw [List.any_eq_true]
  constructor
  · rintro ⟨t, ht, hne⟩
    rw [List.mem_tails] at ht
    have hne2 : sumOrCount.step t ≠ [] := by
      intro h; rw [h] at hne; simp at hne
    obtain ⟨rest, hrest⟩ := List.exists_mem_of_ne_nil _ hne2
    obtain ⟨w, hw, c, hc, rfl⟩ := (mem_step_sumOrCount t rest).mp hrest
    exact ⟨w, hw, c, hc, List.infix_iff_prefix_suffix.mpr ⟨_, List.prefix_append _ _, ht⟩⟩
  · rintro ⟨w, hw, c, hc, hin⟩
    obtain ⟨t, ⟨rest, rfl⟩, hsuf⟩ := List.infix_iff_prefix_suffix.mp hin
    refine ⟨_, (List.mem_tails _ _).mpr hsuf, ?_⟩
    have : rest ∈ sumOrCount.step ((w ++ [c]) ++ rest) :=
      (mem_step_sumOrCount _ rest).mpr ⟨w, hw, c, hc, rfl⟩
    cases h : sumOrCount.step ((w ++ [c]) ++ rest) with
    | nil => rw [h] at this; simp at this
    | cons a as => simp

theorem filterSampleSumAndCount_eq_specFilterSumAndCount (s : String) :
    filterSampleSumAndCount s = specFilterSumAndCount s := by
  unfold filterSampleSumAndCount specFilterSumAndCount Split Join
  simp only [foldl_keep, List.nil_append]
  congr 2
  apply List.filter_congr
  intro l _
  by_cases h : mentionsSumOrCount l
  · simp [h, (MatchString_sumOrCount l).mpr h]
  · have : sumOrCount.MatchString l = false := by
      cases hm : sumOrCount.MatchString l with
      | false => rfl
      | true => exact absurd ((MatchString_sumOrCount l).mp hm) h
    simp [h, this]

theorem not_mem_of_mem_splitOn (a : Char) (xs : List Char) :
    ∀ l ∈ xs.splitOn a, a ∉ l := by
  induction xs with
  | nil => intro l hl; simp [List.splitOn_nil] at hl; simp [hl]
  | cons x xs ih =>
    intro l hl
    simp only [List.splitOn] at hl ih
    rw [List.splitOnP_cons] at hl
    by_cases hx : (x == a) = true
    · simp only [hx, if_true, List.mem_cons] at hl
      rcases hl with rfl | hl
      · simp
      · exact ih l hl
    · cases hsp : List.splitOnP (fun y => y == a) xs with
      | nil => exact absurd hsp (List.splitOnP_ne_nil _ _)
      | cons hd tl =>
        rw [hsp] at hl ih
        rw [if_neg hx, List.modifyHead_cons, List.mem_cons] at hl
        rcases hl with rfl | hl
        · have hhd := ih hd (by simp)
          have hxa : a ≠ x := by
            intro h; apply hx; simp [h]
          simp [hxa, hhd]
        · exact ih l (by simp [hl])

theorem not_mentions_nil : ¬ mentionsSumOrCount [] := by decide

theorem kept_ne_nil (l : List Char) (h : mentionsSumOrCount l) : l ≠ [] := by
  rintro rfl; exact not_mentions_nil h

/-- The lines kept from `s`, none of which holds a newline or is empty. -/
theorem kept_lines_props (s : List Char) :
    ∀ l ∈ (s.splitOn '\n').filter (fun l => mentionsSumOrCount l),
      l ∈ s.splitOn '\n' ∧ mentionsSumOrCount l ∧ '\n' ∉ l := by
  intro l hl
  rw [List.mem_filter] at hl
  exact ⟨hl.1, by simpa using hl.2, not_mem_of_mem_splitOn _ _ l hl.1⟩

theorem splitOn_kept (s : List Char)
    (hne : (s.splitOn '\n').filter (fun l => mentionsSumOrCount l) ≠ []) :
    ([ '\n' ].intercalate ((s.splitOn '\n').filter fun l => mentionsSumOrCount l)).splitOn '\n'
      = (s.splitOn '\n').filter fun l => mentionsSumOrCount l :=
  List.splitOn_intercalate _ '\n' (fun l hl => (kept_lines_props s l hl).2.2) hne

theorem specFilterSumAndCount_idem (s : String) : specFilterSumAndCount (specFilterSumAndCount s) = specFilterSumAndCount s := by
  unfold specFilterSumAndCount
  by_cases hne : (s.data.splitOn '\n').filter (fun l => mentionsSumOrCount l) = []
  · rw [hne]; decide
  · simp only [splitOn_kept s.data hne]
    congr 2
    rw [List.filter_eq_self]
    intro l hl
    simpa using (kept_lines_props s.data l hl).2.1

theorem intercalate_getLast (sep : Char) (ls : List (List Char)) (hne : ls ≠ []) :
    ∃ pre, [sep].intercalate ls = pre ++ ls.getLast hne := by
  induction ls with
  | nil => exact absurd rfl hne
  | cons l rest ih =>
    cases rest with
    | nil => exact ⟨[], by simp [List.intercalate]⟩
    | cons m rest2 =>
      obtain ⟨pre, hpre⟩ := ih (by simp)
      refine ⟨l ++ sep :: pre, ?_⟩
      simp only [List.intercalate, List.intersperse, List.flatten_cons, List.getLast_cons_cons,
        List.append_assoc, List.singleton_append, List.cons_append] at hpre ⊢
      rw [hpre]
      simp

theorem specFilterSumAndCount_getLast (s : String) : (specFilterSumAndCount s).data.getLast? ≠ some '\n' := by
  unfold specFilterSumAndCount
  by_cases hne : (s.data.splitOn '\n').filter (fun l => mentionsSumOrCount l) = []
  · rw [hne]; decide
  · obtain ⟨pre, hpre⟩ := intercalate_getLast '\n' _ hne
    have hmem := List.getLast_mem hne
    obtain ⟨_, hm, hnl⟩ := kept_lines_props s.data _ hmem
    simp only [hpre, List.getLast?_append_of_ne_nil _ (kept_ne_nil _ hm)]
    intro h
    exact hnl (List.mem_of_getLast?_eq_some h)

theorem specFilterSumAndCount_lines (s : String) :
    ∀ line ∈ outputLines (specFilterSumAndCount s),
      line ∈ s.data.splitOn '\n' ∧ mentionsSumOrCount line := by
  intro line hline
  unfold outputLines at hline
  split at hline
  · simp at hline
  · rename_i hdata
    unfold specFilterSumAndCount Split at hline
    by_cases hne : (s.data.splitOn '\n').filter (fun l => mentionsSumOrCount l) = []
    · exfalso; apply hdata; unfold specFilterSumAndCount; rw [hne]; rfl
    · simp only [splitOn_kept s.data hne] at hline
      exact ⟨(kept_lines_props s.data line hline).1, (kept_lines_props s.data line hline).2.1⟩

/-- C10: for every string `s`, `filterSampleSumAndCount s` is the lines of `s` (split on
newlines) that contain `_sum` or `_count` immediately followed by an opening brace or a space,
in their original order, joined by newlines; the result does not end in a newline, is the empty
string when no line matches, and filtering it again changes nothing. -/
theorem filterSampleSumAndCount_refines (s : String) :
    filterSampleSumAndCount s = specFilterSumAndCount s
    ∧ (filterSampleSumAndCount s).data.getLast? ≠ some '\n'
    ∧ ((∀ l ∈ s.data.splitOn '\n', ¬ mentionsSumOrCount l) → filterSampleSumAndCount s = "")
    ∧ filterSampleSumAndCount (filterSampleSumAndCount s) = filterSampleSumAndCount s := by
  refine ⟨filterSampleSumAndCount_eq_specFilterSumAndCount s, ?_, ?_, ?_⟩
  · rw [filterSampleSumAndCount_eq_specFilterSumAndCount]; exact specFilterSumAndCount_getLast s
  · intro h
    rw [filterSampleSumAndCount_eq_specFilterSumAndCount]
    unfold specFilterSumAndCount
    have : (s.data.splitOn '\n').filter (fun l => mentionsSumOrCount l) = [] := by
      rw [List.filter_eq_nil_iff]
      intro l hl
      simpa using h l hl
    rw [this]; rfl
  · simp only [filterSampleSumAndCount_eq_specFilterSumAndCount]; exact specFilterSumAndCount_idem s

/-- C9 (as amended): every line of the output of `filterSampleSumAndCount` is a line of the
input that contains, somewhere in the line, `_sum` or `_count` immediately followed by an
opening brace or a space; a line without such an occurrence never appears in the output. -/
theorem filterSampleSumAndCount_lines (s : String) :
    (∀ line ∈ outputLines (filterSampleSumAndCount s),
      line ∈ Split s.data '\n' ∧ mentionsSumOrCount line)
    ∧ (∀ line, ¬ mentionsSumOrCount line → line ∉ outputLines (filterSampleSumAndCount s)) := by
  rw [filterSampleSumAndCount_eq_specFilterSumAndCount]
  exact ⟨specFilterSumAndCount_lines s, fun line hno hmem => hno (specFilterSumAndCount_lines s line hmem).2⟩

/-- C9 (counterexample): in the exposition of a histogram named `req_count`, the `# TYPE`
comment line contains `_count` followed by a space, so the filter keeps it, although its series
name does not end in `_sum` or `_count`. -/
theorem filterSampleSumAndCount_keeps_comment :
    "# TYPE req_count histogram".data ∈ outputLines (filterSampleSumAndCount
      "# HELP req_count \n# TYPE req_count histogram\nreq_count_bucket\x7ble=\"+Inf\"\x7d 1\nreq_count_sum 3\nreq_count_count 1\n")
    ∧ seriesNameEndsInSumOrCount "# TYPE req_count histogram".data = false := by
  decide

/-! ## Lemmas on the drain and on float64 comparison -/

theorem float64.eq_self (x : float64) (h : x.isNaN = false) : float64.eq x x = true := by
  unfold float64.eq
  simp [h]

theorem float64.ne_self (x : float64) (h : x.isNaN = false) : float64.ne x x = false := by
  simp [float64.ne, float64.eq_self x h]

theorem float64.eq_false_of_ne (x y : float64) (h : float64.ne x y = true) :
    float64.eq x y = false := by
  simpa [float64.ne] using h

theorem collect_count (l : List Metric) (o : Option Metric) (n : Nat) :
    (l.foldl (fun (acc : Option Metric × Nat) m => (some m, acc.2 + 1)) (o, n)).2
      = n + l.length := by
  induction l generalizing o n with
  | nil => simp
  | cons x xs ih => simp only [List.foldl_cons, ih, List.length_cons]; omega

theorem collectOne_error (c : Collector) (h : c.Collect.length ≠ 1) :
    collectOne c
      = .error ("expected to collect 1 metric, but got " ++ fmtD (c.Collect.length : Int)) := by
  unfold collectOne
  simp only [collect_count, Nat.zero_add]
  rw [if_pos h]

theorem collectOne_single (c : Collector) (m : Metric) (h : c.Collect = [m]) :
    collectOne c = .ok m.Write := by
  unfold collectOne
  rw [h]
  rfl

theorem collectOne_asCollector (m : Metric) : collectOne m.asCollector = .ok m.Write :=
  collectOne_single _ m rfl

/-- C7: `collectOne` panics, with the message "expected to collect 1 metric, but got n", exactly
when the collector produces a number `n` of metrics other than one; when it produces exactly one
metric the result is the snapshot that metric writes; and in the fatal case
`AssertHistogramSamples` and `AssertSummarySamples` panic with the reporter untouched. -/
theorem collectOne_spec :
    (∀ c : Collector, (∃ v, collectOne c = .error v) ↔ c.Collect.length ≠ 1)
    ∧ (∀ c : Collector, c.Collect.length ≠ 1 →
        collectOne c = .error ("expected to collect 1 metric, but got "
          ++ fmtD (c.Collect.length : Int)))
    ∧ (∀ (c : Collector) (m : Metric), c.Collect = [m] → collectOne c = .ok m.Write)
    ∧ (∀ (f : Fmt) (t : TestingT) (count : Int) (sum : float64) (c : Collector),
        c.Collect.length ≠ 1 →
        AssertHistogramSamples f t count sum c
            = .panicked t ("expected to collect 1 metric, but got "
                ++ fmtD (c.Collect.length : Int))
        ∧ AssertSummarySamples f t count sum c
            = .panicked t ("expected to collect 1 metric, but got "
                ++ fmtD (c.Collect.length : Int))) := by
  refine ⟨?_, collectOne_error, collectOne_single, ?_⟩
  · intro c
    constructor
    · rintro ⟨v, hv⟩ hlen
      obtain ⟨m, hm⟩ := List.length_eq_one.mp hlen
      rw [collectOne_single c m hm] at hv
      cases hv
    · intro h
      exact ⟨_, collectOne_error c h⟩
  · intro f t count sum c h
    unfold AssertHistogramSamples AssertSummarySamples
    rw [collectOne_error c h]
    exact ⟨rfl, rfl⟩

/-- C7 (instance): a collector producing no metric and one producing two metrics make
`AssertHistogramSamples` panic with nothing reported, and a histogram with two observations
summing to 30 is drained to that snapshot. -/
theorem collectOne_spec_witness :
    AssertHistogramSamples goFmt [] 2 (float64.ofNat 30) ⟨[], []⟩
        = .panicked [] "expected to collect 1 metric, but got 0"
    ∧ AssertHistogramSamples goFmt [] 2 (float64.ofNat 30) testHistogramVec.asCollector
        = .panicked [] "expected to collect 1 metric, but got 2"
    ∧ collectOne (histogramOf "test_histogram" 2 (float64.ofNat 30)).asCollector
        = .ok (histogramOf "test_histogram" 2 (float64.ofNat 30)).Write :=
  ⟨(collectOne_spec.2.2.2 goFmt [] 2 (float64.ofNat 30) ⟨[], []⟩ (by decide)).1,
   (collectOne_spec.2.2.2 goFmt [] 2 (float64.ofNat 30) testHistogramVec.asCollector
      (by decide)).1,
   collectOne_spec.2.2.1 _ _ rfl⟩

/-! ## Scalar assertions -/

theorem data_sub_mid (a b c : String) : b.data <:+: (a ++ b ++ c).data :=
  ⟨a.data, c.data, by simp [String.data_append]⟩

theorem data_sub_last (a b : String) : b.data <:+: (a ++ b).data :=
  ⟨a.data, [], by simp [String.data_append]⟩

/-- C1 (as amended): for a counter or gauge that drains to the value `V`, asserting
`expected = V` makes no `Errorf` call provided `V` is not NaN, and asserting `expected = V + 1`
makes exactly one call provided `V + 1` differs from `V` in float64 arithmetic; the message is
"Not equal:", the rendering of `V + 1` as expected and the rendering of `V` as actual, so it
contains both renderings. -/
theorem AssertCounter_AssertGauge_spec (f : Fmt) (t : TestingT) (V : float64) (c : Collector)
    (hV : ToFloat64 c = .ok V) :
    (V.isNaN = false →
      AssertCounter f t V c = .returned t ∧ AssertGauge f t V c = .returned t)
    ∧ (float64.ne V (float64.add V float64.one) = true →
      AssertCounter f t (float64.add V float64.one) c
        = .returned (t ++ ["Not equal:\nexpected: " ++ f.sharpV (float64.add V float64.one)
            ++ "\nactual  : " ++ f.sharpV V])
      ∧ AssertGauge f t (float64.add V float64.one) c
        = .returned (t ++ ["Not equal:\nexpected: " ++ f.sharpV (float64.add V float64.one)
            ++ "\nactual  : " ++ f.sharpV V])
      ∧ (f.sharpV V).data <:+: ("Not equal:\nexpected: "
            ++ f.sharpV (float64.add V float64.one) ++ "\nactual  : " ++ f.sharpV V).data
      ∧ (f.sharpV (float64.add V float64.one)).data <:+: ("Not equal:\nexpected: "
            ++ f.sharpV (float64.add V float64.one) ++ "\nactual  : " ++ f.sharpV V).data) := by
  constructor
  · intro hnan
    simp [AssertCounter, AssertGauge, hV, float64.ne_self V hnan]
  · intro hne
    refine ⟨?_, ?_, data_sub_last _ _, ?_⟩
    · simp [AssertCounter, hV, hne, TestingT.Errorf, notEqualMsg]
    · simp [AssertGauge, hV, hne, TestingT.Errorf, notEqualMsg]
    · rw [String.append_assoc]
      exact data_sub_mid _ _ _

/-- C1 (instance): a counter at 10 asserted at 10 and at 11. -/
theorem AssertCounter_AssertGauge_spec_witness :
    AssertCounter goFmt [] (float64.ofNat 10) (counterOf "test_counter" (float64.ofNat 10)).asCollector
        = .returned []
    ∧ AssertCounter goFmt [] (float64.add (float64.ofNat 10) float64.one)
        (counterOf "test_counter" (float64.ofNat 10)).asCollector
        = .returned ["Not equal:\nexpected: " ++ goFmt.sharpV (float64.add (float64.ofNat 10) float64.one)
            ++ "\nactual  : " ++ goFmt.sharpV (float64.ofNat 10)] :=
  ⟨((AssertCounter_AssertGauge_spec goFmt [] (float64.ofNat 10)
      (counterOf "test_counter" (float64.ofNat 10)).asCollector rfl).1 (by decide!)).1,
   ((AssertCounter_AssertGauge_spec goFmt [] (float64.ofNat 10)
      (counterOf "test_counter" (float64.ofNat 10)).asCollector rfl).2 (by decide!)).1⟩

/-- C1 (counterexample): a gauge and a counter holding NaN, asserted with `expected` = NaN,
each get one `Errorf` call instead of none; a gauge at plus infinity and a counter at `2^53`,
asserted with `expected = V + 1`, get no call instead of one. -/
theorem AssertGauge_NaN_reports :
    AssertGauge goFmt [] float64.NaN (gaugeOf "test_gauge" float64.NaN).asCollector
        = .returned ["Not equal:\nexpected: NaN\nactual  : NaN"]
    ∧ AssertCounter goFmt [] float64.NaN (counterOf "test_counter" float64.NaN).asCollector
        = .returned ["Not equal:\nexpected: NaN\nactual  : NaN"]
    ∧ AssertGauge goFmt [] (float64.add (float64.Inf false) float64.one)
        (gaugeOf "test_gauge" (float64.Inf false)).asCollector = .returned []
    ∧ AssertCounter goFmt [] (float64.add (float64.ofNat 9007199254740992) float64.one)
        (counterOf "test_counter" (float64.ofNat 9007199254740992)).asCollector
        = .returned [] := by
  decide!

/-! ## Vector lookups -/

theorem lookup_mem (lvs : List String) (l : List (List String × Metric)) (m : Metric)
    (h : l.lookup lvs = some m) : m ∈ l.map Prod.snd := by
  induction l with
  | nil => simp at h
  | cons x xs ih =>
    obtain ⟨k, v⟩ := x
    rw [List.lookup_cons] at h
    split at h
    · cases h
      exact List.mem_cons_self _ _
    · exact List.mem_cons_of_mem _ (ih h)

theorem lookup_unobserved {k : Kind} (v : MetricVec k) (lvs : List String)
    (harity : lvs.length = v.desc.variableLabels.length) (hnew : v.metrics.lookup lvs = none) :
    v.GetMetricWithLabelValues lvs
      = .ok (v.newMetric lvs, ⟨v.desc, v.metrics ++ [(lvs, v.newMetric lvs)]⟩) := by
  unfold MetricVec.GetMetricWithLabelValues
  simp [harity, hnew]

theorem lookup_arity {k : Kind} (v : MetricVec k) (lvs : List String)
    (harity : lvs.length ≠ v.desc.variableLabels.length) :
    v.GetMetricWithLabelValues lvs = .error MetricVec.errInconsistentCardinality := by
  unfold MetricVec.GetMetricWithLabelValues
  simp [harity]

theorem lookup_children {k : Kind} (v v1 : MetricVec k) (lvs : List String) (m : Metric)
    (h : v.GetMetricWithLabelValues lvs = .ok (m, v1)) :
    m ∈ v1.asCollector.Collect ∧ ∀ child ∈ v.metrics, child.2 ∈ v1.asCollector.Collect := by
  unfold MetricVec.GetMetricWithLabelValues at h
  split at h
  · cases h
  · split at h
    · rename_i m0 hm0
      simp only [Except.ok.injEq, Prod.mk.injEq] at h
      obtain ⟨rfl, rfl⟩ := h
      refine ⟨lookup_mem _ _ _ hm0, ?_⟩
      intro child hc
      simp only [MetricVec.asCollector, List.mem_map]
      exact ⟨child, hc, rfl⟩
    · simp only [Except.ok.injEq, Prod.mk.injEq] at h
      obtain ⟨rfl, rfl⟩ := h
      simp only [MetricVec.asCollector, List.map_append, List.map_cons, List.map_nil,
        List.mem_append, List.mem_singleton, List.mem_map]
      exact ⟨Or.inr trivial, fun child hc => Or.inl ⟨child, hc, rfl⟩⟩

theorem ToFloat64_zero_counter (d : Desc) (labels : List (String × String)) :
    ToFloat64 (Metric.asCollector ⟨d, Kind.counter.zero labels⟩) = .ok float64.zero := rfl

theorem ToFloat64_zero_gauge (d : Desc) (labels : List (String × String)) :
    ToFloat64 (Metric.asCollector ⟨d, Kind.gauge.zero labels⟩) = .ok float64.zero := rfl

/-- C2: for each of the four kinds of vector and every label-value sequence of the vector's
arity that no child of the vector carries, asserting zero (`expected = 0`, or `count = 0` and
`sum = 0`) leaves the reporter as it was, whatever children the vector holds. -/
theorem assert_zero_unobserved {MF : Type} (f : Fmt) (reg : Registry MF) (t : TestingT)
    (labels : List String) :
    (∀ v : CounterVec, labels.length = v.desc.variableLabels.length →
        v.metrics.lookup labels = none →
        AssertCounterVec f reg t float64.zero v labels = .returned t)
    ∧ (∀ v : GaugeVec, labels.length = v.desc.variableLabels.length →
        v.metrics.lookup labels = none →
        AssertGaugeVec f reg t float64.zero v labels = .returned t)
    ∧ (∀ v : HistogramVec, labels.length = v.desc.variableLabels.length →
        v.metrics.lookup labels = none →
        AssertHistogramVecSamples f reg t 0 float64.zero v labels = .returned t)
    ∧ (∀ v : SummaryVec, labels.length = v.desc.variableLabels.length →
        v.metrics.lookup labels = none →
        AssertSummaryVecSamples f reg t 0 float64.zero v labels = .returned t) := by
  refine ⟨?_, ?_, ?_, ?_⟩
  · intro v ha hn
    simp only [AssertCounterVec, lookup_unobserved v labels ha hn, assertVec,
      MetricVec.newMetric, ToFloat64_zero_counter]
    rfl
  · intro v ha hn
    simp only [AssertGaugeVec, lookup_unobserved v labels ha hn, assertVec,
      MetricVec.newMetric, ToFloat64_zero_gauge]
    rfl
  · intro v ha hn
    simp only [AssertHistogramVecSamples, lookup_unobserved v labels ha hn,
      collectOne_asCollector]
    rfl
  · intro v ha hn
    simp only [AssertSummaryVecSamples, lookup_unobserved v labels ha hn,
      collectOne_asCollector]
    rfl

/-- C2 (instance): the vectors of the test file, which hold other children, asserted at zero
for the labels `foo`, `bar`. -/
theorem assert_zero_unobserved_witness :
    AssertCounterVec goFmt textRegistry [] float64.zero testCounterVec ["foo", "bar"]
        = .returned []
    ∧ AssertHistogramVecSamples goFmt textRegistry [] 0 float64.zero testHistogramVec
        ["foo", "bar"] = .returned [] :=
  ⟨(assert_zero_unobserved goFmt textRegistry [] ["foo", "bar"]).1 testCounterVec
      (by decide) (by decide),
   (assert_zero_unobserved goFmt textRegistry [] ["foo", "bar"]).2.2.1 testHistogramVec
      (by decide) (by decide)⟩

/-- C6: when the lookup of the child fails, each of the four vector assertions makes exactly
one `Errorf` call, whose message is the text of the lookup error, and returns; this holds for
every expected value, count and sum (nothing is drained or compared), and a label-value sequence
whose length differs from the number of label names is such a failing lookup. -/
theorem assert_lookup_error {MF : Type} (f : Fmt) (reg : Registry MF) (t : TestingT)
    (labels : List String) (err : String) :
    (∀ v : CounterVec, v.GetMetricWithLabelValues labels = .error err →
        ∀ expected, AssertCounterVec f reg t expected v labels = .returned (t ++ [err]))
    ∧ (∀ v : GaugeVec, v.GetMetricWithLabelValues labels = .error err →
        ∀ expected, AssertGaugeVec f reg t expected v labels = .returned (t ++ [err]))
    ∧ (∀ v : HistogramVec, v.GetMetricWithLabelValues labels = .error err →
        ∀ count sum, AssertHistogramVecSamples f reg t count sum v labels
          = .returned (t ++ [err]))
    ∧ (∀ v : SummaryVec, v.GetMetricWithLabelValues labels = .error err →
        ∀ count sum, AssertSummaryVecSamples f reg t count sum v labels
          = .returned (t ++ [err]))
    ∧ (∀ (k : Kind) (v : MetricVec k), labels.length ≠ v.desc.variableLabels.length →
        ∃ e, v.GetMetricWithLabelValues labels = .error e) := by
  refine ⟨?_, ?_, ?_, ?_, ?_⟩
  · intro v h expected
    simp [AssertCounterVec, h, TestingT.Errorf]
  · intro v h expected
    simp [AssertGaugeVec, h, TestingT.Errorf]
  · intro v h count sum
    simp [AssertHistogramVecSamples, h, TestingT.Errorf]
  · intro v h count sum
    simp [AssertSummaryVecSamples, h, TestingT.Errorf]
  · intro k v h
    exact ⟨_, lookup_arity v labels h⟩

/-- C6 (instance): one label value given to the two-label vectors of the test file, with
expected values equal to zero. -/
theorem assert_lookup_error_witness :
    AssertCounterVec goFmt textRegistry [] float64.zero testCounterVec ["batman"]
        = .returned ["inconsistent label cardinality"]
    ∧ AssertHistogramVecSamples goFmt textRegistry [] 0 float64.zero testHistogramVec
        ["batman"] = .returned ["inconsistent label cardinality"] :=
  ⟨(assert_lookup_error goFmt textRegistry [] ["batman"] "inconsistent label cardinality").1
      testCounterVec rfl float64.zero,
   (assert_lookup_error goFmt textRegistry [] ["batman"]
      "inconsistent label cardinality").2.2.1 testHistogramVec rfl 0 float64.zero⟩

/-- C8: for a counter or gauge vector and labels that resolve to a child whose value differs
from the expected value, `AssertCounterVec` / `AssertGaugeVec` make exactly one `Errorf` call;
its message is "Not equal:", the expected and the actual value, "metric:" and then what
`ToExpVar` returns for the whole vector (the text, or the text of its error), and the collector
handed to `ToExpVar` holds every child of the vector. -/
theorem assertVec_mismatch {MF : Type} (f : Fmt) (reg : Registry MF) (t : TestingT)
    (expected actual : float64) (labels : List String) (m : Metric)
    (hm : ToFloat64 m.asCollector = .ok actual) (hne : float64.ne actual expected = true) :
    (∀ v v1 : CounterVec, v.GetMetricWithLabelValues labels = .ok (m, v1) →
        AssertCounterVec f reg t expected v labels
          = .returned (t ++ ["Not equal:\nexpected: " ++ f.sharpV expected ++ "\nactual  : "
              ++ f.sharpV actual ++ "\n\nmetric:\n"
              ++ (match ToExpVar reg v1.asCollector with
                  | (_, some err) => err
                  | (expvar, none) => expvar)])
        ∧ ∀ child ∈ v.metrics, child.2 ∈ v1.asCollector.Collect)
    ∧ (∀ v v1 : GaugeVec, v.GetMetricWithLabelValues labels = .ok (m, v1) →
        AssertGaugeVec f reg t expected v labels
          = .returned (t ++ ["Not equal:\nexpected: " ++ f.sharpV expected ++ "\nactual  : "
              ++ f.sharpV actual ++ "\n\nmetric:\n"
              ++ (match ToExpVar reg v1.asCollector with
                  | (_, some err) => err
                  | (expvar, none) => expvar)])
        ∧ ∀ child ∈ v.metrics, child.2 ∈ v1.asCollector.Collect) := by
  have heq := float64.eq_false_of_ne _ _ hne
  constructor
  · intro v v1 hv
    refine ⟨?_, (lookup_children v v1 labels m hv).2⟩
    simp only [AssertCounterVec, hv, assertVec, hm, heq, TestingT.Errorf, notEqualVecMsg,
      expvarOrError]
    rfl
  · intro v v1 hv
    refine ⟨?_, (lookup_children v v1 labels m hv).2⟩
    simp only [AssertGaugeVec, hv, assertVec, hm, heq, TestingT.Errorf, notEqualVecMsg,
      expvarOrError]
    rfl

/-- C8 (instance): `TestAssertCounterVec`, the child `batman`, `joker` at 2 asserted at 1; the
message lists both children of the vector. -/
theorem assertVec_mismatch_witness :
    AssertCounterVec goFmt textRegistry [] (float64.ofNat 1) testCounterVec ["batman", "joker"]
      = .returned ["Not equal:\nexpected: 1\nactual  : 2\n\nmetric:\n# HELP test_counter_vec \n# TYPE test_counter_vec counter\ntest_counter_vec\x7bhero=\"batman\",villain=\"joker\"\x7d 2\ntest_counter_vec\x7bhero=\"superman\",villain=\"lex luthor\"\x7d 100\n"] :=
  ((assertVec_mismatch goFmt textRegistry [] (float64.ofNat 1) (float64.ofNat 2)
      ["batman", "joker"]
      ⟨heroDesc "test_counter_vec",
        ⟨[("hero", "batman"), ("villain", "joker")], none, some (float64.ofNat 2), none, none,
          none⟩⟩
      rfl (by decide!)).1 testCounterVec testCounterVec rfl).1.trans (by decide!)

/-! ## Distribution assertions -/

theorem assertHistogramVec_equal {MF : Type} (f : Fmt) (reg : Registry MF) (t : TestingT)
    (count : Int) (actualCount : Nat) (sum actualSum : float64) (c : Collector)
    (hc : uint64 count = actualCount) (hs : float64.eq actualSum sum = true) :
    assertHistogramVec f reg t count actualCount sum actualSum c = t := by
  simp [assertHistogramVec, hc, hs]

theorem assertHistogramVec_count {MF : Type} (f : Fmt) (reg : Registry MF) (t : TestingT)
    (count : Int) (actualCount : Nat) (sum actualSum : float64) (c : Collector)
    (hc : uint64 count ≠ actualCount) (hs : float64.eq actualSum sum = true) :
    assertHistogramVec f reg t count actualCount sum actualSum c
      = t ++ [countVecMsg count actualCount (filterSampleSumAndCount (expvarOrError reg c))] := by
  simp [assertHistogramVec, Ne.symm hc, hs, float64.ne, TestingT.Errorf]

theorem assertHistogramVec_sum {MF : Type} (f : Fmt) (reg : Registry MF) (t : TestingT)
    (count : Int) (actualCount : Nat) (sum actualSum : float64) (c : Collector)
    (hc : uint64 count = actualCount) (hs : float64.ne actualSum sum = true) :
    assertHistogramVec f reg t count actualCount sum actualSum c
      = t ++ [sumVecMsg f sum actualSum (filterSampleSumAndCount (expvarOrError reg c))] := by
  simp [assertHistogramVec, hc, hs, float64.eq_false_of_ne _ _ hs, TestingT.Errorf]

theorem assertHistogramVec_both {MF : Type} (f : Fmt) (reg : Registry MF) (t : TestingT)
    (count : Int) (actualCount : Nat) (sum actualSum : float64) (c : Collector)
    (hc : uint64 count ≠ actualCount) (hs : float64.ne actualSum sum = true) :
    assertHistogramVec f reg t count actualCount sum actualSum c
      = t ++ [countVecMsg count actualCount (filterSampleSumAndCount (expvarOrError reg c)),
          sumVecMsg f sum actualSum (filterSampleSumAndCount (expvarOrError reg c))] := by
  simp [assertHistogramVec, Ne.symm hc, hs, TestingT.Errorf]

theorem AssertHistogramSamples_eval (f : Fmt) (t : TestingT) (count : Int) (sum : float64)
    (m : Metric) :
    AssertHistogramSamples f t count sum m.asCollector
      = if GetSampleCount m.Write.Histogram ≠ uint64 count then
          .returned (t ++ [countMsg count (GetSampleCount m.Write.Histogram)])
        else if float64.ne (GetSampleSum m.Write.Histogram) sum then
          .returned (t ++ [sumMsg f sum (GetSampleSum m.Write.Histogram)])
        else .returned t := by
  simp only [AssertHistogramSamples, collectOne_asCollector, TestingT.Errorf]

theorem AssertSummarySamples_eval (f : Fmt) (t : TestingT) (count : Int) (sum : float64)
    (m : Metric) :
    AssertSummarySamples f t count sum m.asCollector
      = if GetSampleCount m.Write.Summary ≠ uint64 count then
          .returned (t ++ [countMsg count (GetSampleCount m.Write.Summary)])
        else if float64.ne (GetSampleSum m.Write.Summary) sum then
          .returned (t ++ [sumMsg f sum (GetSampleSum m.Write.Summary)])
        else .returned t := by
  simp only [AssertSummarySamples, collectOne_asCollector, TestingT.Errorf]

theorem AssertHistogramVecSamples_eval {MF : Type} (f : Fmt) (reg : Registry MF)
    (t : TestingT) (count : Int) (sum : float64) (v v1 : HistogramVec) (labels : List String)
    (m : Metric) (hv : v.GetMetricWithLabelValues labels = .ok (m, v1)) :
    AssertHistogramVecSamples f reg t count sum v labels
      = .returned (assertHistogramVec f reg t count (GetSampleCount m.Write.Histogram) sum
          (GetSampleSum m.Write.Histogram) v1.asCollector) := by
  simp only [AssertHistogramVecSamples, hv, collectOne_asCollector]

theorem AssertSummaryVecSamples_eval {MF : Type} (f : Fmt) (reg : Registry MF)
    (t : TestingT) (count : Int) (sum : float64) (v v1 : SummaryVec) (labels : List String)
    (m : Metric) (hv : v.GetMetricWithLabelValues labels = .ok (m, v1)) :
    AssertSummaryVecSamples f reg t count sum v labels
      = .returned (assertHistogramVec f reg t count (GetSampleCount m.Write.Summary) sum
          (GetSampleSum m.Write.Summary) v1.asCollector) := by
  simp only [AssertSummaryVecSamples, hv, collectOne_asCollector]

theorem uint64_eq_iff (count : Int) (N : Nat)
    (hlo : -9223372036854775808 ≤ count) (hhi : count < 9223372036854775808)
    (hN : N < 9223372036854775808) : uint64 count = N ↔ count = (N : Int) := by
  unfold uint64
  omega

/-- C3 (as amended): for a histogram or summary with `N` observations summing to `S` and for
each of the four sample assertions: asserting `(count, S)` with `count` equal to `N` reports
nothing, provided `S` is not NaN; asserting a count different from `N` with `sum = S` reports
exactly one failure, "Sample count not equal" (for the two vector assertions provided `S` is not
NaN, for the two single assertions whatever `S` is); asserting a count equal to `N` with a sum
that compares unequal to `S` reports exactly one failure, "Sample sum not equal", whatever `S`
is.  The count is compared the way the code compares it, as `uint64(count)` against `N`; for a
Go `int` and `N` below `2^63` that is the comparison of `count` with `N` (last part). -/
theorem sample_assertions_spec {MF : Type} (f : Fmt) (reg : Registry MF) (t : TestingT)
    (N : Nat) (S : float64) :
    (∀ m : Metric, m.Write.Histogram = some ⟨N, S⟩ →
      (∀ count, S.isNaN = false → uint64 count = N →
        AssertHistogramSamples f t count S m.asCollector = .returned t)
      ∧ (∀ count, uint64 count ≠ N →
        AssertHistogramSamples f t count S m.asCollector
          = .returned (t ++ ["Sample count not equal:\nexpected: " ++ fmtD count
              ++ "\nactual  : " ++ fmtD N]))
      ∧ (∀ count sum, uint64 count = N → float64.ne S sum = true →
        AssertHistogramSamples f t count sum m.asCollector
          = .returned (t ++ ["Sample sum not equal:\nexpected: " ++ f.g sum
              ++ "\nactual  : " ++ f.g S])))
    ∧ (∀ m : Metric, m.Write.Summary = some ⟨N, S⟩ →
      (∀ count, S.isNaN = false → uint64 count = N →
        AssertSummarySamples f t count S m.asCollector = .returned t)
      ∧ (∀ count, uint64 count ≠ N →
        AssertSummarySamples f t count S m.asCollector
          = .returned (t ++ ["Sample count not equal:\nexpected: " ++ fmtD count
              ++ "\nactual  : " ++ fmtD N]))
      ∧ (∀ count sum, uint64 count = N → float64.ne S sum = true →
        AssertSummarySamples f t count sum m.asCollector
          = .returned (t ++ ["Sample sum not equal:\nexpected: " ++ f.g sum
              ++ "\nactual  : " ++ f.g S])))
    ∧ (∀ (v v1 : HistogramVec) (labels : List String) (m : Metric),
      v.GetMetricWithLabelValues labels = .ok (m, v1) → m.Write.Histogram = some ⟨N, S⟩ →
      (∀ count, S.isNaN = false → uint64 count = N →
        AssertHistogramVecSamples f reg t count S v labels = .returned t)
      ∧ (∀ count, S.isNaN = false → uint64 count ≠ N →
        AssertHistogramVecSamples f reg t count S v labels
          = .returned (t ++ ["Sample count not equal:\nexpected: " ++ fmtD count
              ++ "\nactual  : " ++ fmtD N ++ "\n\nmetric:\n"
              ++ filterSampleSumAndCount (expvarOrError reg v1.asCollector)]))
      ∧ (∀ count sum, uint64 count = N → float64.ne S sum = true →
        AssertHistogramVecSamples f reg t count sum v labels
          = .returned (t ++ ["Sample sum not equal:\nexpected: " ++ f.g sum
              ++ "\nactual  : " ++ f.g S ++ "\n\nmetric:\n"
              ++ filterSampleSumAndCount (expvarOrError reg v1.asCollector)])))
    ∧ (∀ (v v1 : SummaryVec) (labels : List String) (m : Metric),
      v.GetMetricWithLabelValues labels = .ok (m, v1) → m.Write.Summary = some ⟨N, S⟩ →
      (∀ count, S.isNaN = false → uint64 count = N →
        AssertSummaryVecSamples f reg t count S v labels = .returned t)
      ∧ (∀ count, S.isNaN = false → uint64 count ≠ N →
        AssertSummaryVecSamples f reg t count S v labels
          = .returned (t ++ ["Sample count not equal:\nexpected: " ++ fmtD count
              ++ "\nactual  : " ++ fmtD N ++ "\n\nmetric:\n"
              ++ filterSampleSumAndCount (expvarOrError reg v1.asCollector)]))
      ∧ (∀ count sum, uint64 count = N → float64.ne S sum = true →
        AssertSummaryVecSamples f reg t count sum v labels
          = .returned (t ++ ["Sample sum not equal:\nexpected: " ++ f.g sum
              ++ "\nactual  : " ++ f.g S ++ "\n\nmetric:\n"
              ++ filterSampleSumAndCount (expvarOrError reg v1.asCollector)])))
    ∧ (∀ count : Int, -9223372036854775808 ≤ count → count < 9223372036854775808 →
        N < 9223372036854775808 → (uint64 count = N ↔ count = (N : Int))) := by
  refine ⟨?_, ?_, ?_, ?_, fun count hlo hhi hN => uint64_eq_iff count N hlo hhi hN⟩
  · intro m hm
    refine ⟨?_, ?_, ?_⟩
    · intro count hS hc
      simp [AssertHistogramSamples_eval, hm, GetSampleCount, GetSampleSum, hc,
        float64.ne_self S hS]
    · intro count hc
      simp [AssertHistogramSamples_eval, hm, GetSampleCount, GetSampleSum, Ne.symm hc, countMsg]
    · intro count sum hc hs
      simp [AssertHistogramSamples_eval, hm, GetSampleCount, GetSampleSum, hc, hs, sumMsg]
  · intro m hm
    refine ⟨?_, ?_, ?_⟩
    · intro count hS hc
      simp [AssertSummarySamples_eval, hm, GetSampleCount, GetSampleSum, hc,
        float64.ne_self S hS]
    · intro count hc
      simp [AssertSummarySamples_eval, hm, GetSampleCount, GetSampleSum, Ne.symm hc, countMsg]
    · intro count sum hc hs
      simp [AssertSummarySamples_eval, hm, GetSampleCount, GetSampleSum, hc, hs, sumMsg]
  · intro v v1 labels m hv hm
    simp only [AssertHistogramVecSamples_eval f reg t _ _ v v1 labels m hv, hm, GetSampleCount,
      GetSampleSum]
    refine ⟨?_, ?_, ?_⟩
    · intro count hS hc
      rw [assertHistogramVec_equal f reg t count N S S _ hc (float64.eq_self S hS)]
    · intro count hS hc
      rw [assertHistogramVec_count f reg t count N S S _ hc (float64.eq_self S hS)]
      simp [countVecMsg]
    · intro count sum hc hs
      rw [assertHistogramVec_sum f reg t count N sum S _ hc hs]
      simp [sumVecMsg]
  · intro v v1 labels m hv hm
    simp only [AssertSummaryVecSamples_eval f reg t _ _ v v1 labels m hv, hm, GetSampleCount,
      GetSampleSum]
    refine ⟨?_, ?_, ?_⟩
    · intro count hS hc
      rw [assertHistogramVec_equal f reg t count N S S _ hc (float64.eq_self S hS)]
    · intro count hS hc
      rw [assertHistogramVec_count f reg t count N S S _ hc (float64.eq_self S hS)]
      simp [countVecMsg]
    · intro count sum hc hs
      rw [assertHistogramVec_sum f reg t count N sum S _ hc hs]
      simp [sumVecMsg]

/-- C3 (instance): `TestAssertHistogramSamples` and `TestAssertHistogramVecSamples`, two
observations summing to 30, asserted at `(2, 30)`, at `(1, 30)` and at `(2, 42)`; and a
histogram whose sum is NaN, asserted at a wrong count and at a wrong sum, where the single
assertion still reports exactly one failure. -/
theorem sample_assertions_spec_witness :
    AssertHistogramSamples goFmt [] 2 (float64.ofNat 30)
        (histogramOf "test_histogram" 2 (float64.ofNat 30)).asCollector = .returned []
    ∧ AssertHistogramSamples goFmt [] 1 (float64.ofNat 30)
        (histogramOf "test_histogram" 2 (float64.ofNat 30)).asCollector
        = .returned ["Sample count not equal:\nexpected: 1\nactual  : 2"]
    ∧ AssertHistogramVecSamples goFmt textRegistry [] 2 (float64.ofNat 42) testHistogramVec
        ["batman", "joker"]
        = .returned ["Sample sum not equal:\nexpected: 42\nactual  : 30\n\nmetric:\ntest_histogram_sum\x7bhero=\"batman\",villain=\"joker\"\x7d 30\ntest_histogram_count\x7bhero=\"batman\",villain=\"joker\"\x7d 2\ntest_histogram_sum\x7bhero=\"superman\",villain=\"lex luthor\"\x7d 10\ntest_histogram_count\x7bhero=\"superman\",villain=\"lex luthor\"\x7d 1"]
    ∧ AssertHistogramVecSamples goFmt textRegistry [] 1 (float64.ofNat 30) testHistogramVec
        ["batman", "joker"]
        = .returned ["Sample count not equal:\nexpected: 1\nactual  : 2\n\nmetric:\ntest_histogram_sum\x7bhero=\"batman\",villain=\"joker\"\x7d 30\ntest_histogram_count\x7bhero=\"batman\",villain=\"joker\"\x7d 2\ntest_histogram_sum\x7bhero=\"superman\",villain=\"lex luthor\"\x7d 10\ntest_histogram_count\x7bhero=\"superman\",villain=\"lex luthor\"\x7d 1"]
    ∧ AssertHistogramSamples goFmt [] 2 float64.NaN
        (histogramOf "test_histogram" 1 float64.NaN).asCollector
        = .returned ["Sample count not equal:\nexpected: 2\nactual  : 1"]
    ∧ AssertHistogramSamples goFmt [] 1 (float64.ofNat 30)
        (histogramOf "test_histogram" 1 float64.NaN).asCollector
        = .returned ["Sample sum not equal:\nexpected: 30\nactual  : NaN"]
    ∧ (uint64 1 = 2 ↔ (1 : Int) = ((2 : Nat) : Int)) :=
  ⟨((sample_assertions_spec goFmt textRegistry [] 2 (float64.ofNat 30)).1
      (histogramOf "test_histogram" 2 (float64.ofNat 30)) rfl).1 2 (by decide!) (by decide),
   (((sample_assertions_spec goFmt textRegistry [] 2 (float64.ofNat 30)).1
      (histogramOf "test_histogram" 2 (float64.ofNat 30)) rfl).2.1 1 (by decide)).trans
      (by decide!),
   (((sample_assertions_spec goFmt textRegistry [] 2 (float64.ofNat 30)).2.2.1
      testHistogramVec testHistogramVec ["batman", "joker"]
      ⟨heroDesc "test_histogram",
        ⟨[("hero", "batman"), ("villain", "joker")], none, none, none, none,
          some ⟨2, float64.ofNat 30⟩⟩⟩
      rfl rfl).2.2 2 (float64.ofNat 42) (by decide) (by decide!)).trans (by decide!),
   (((sample_assertions_spec goFmt textRegistry [] 2 (float64.ofNat 30)).2.2.1
      testHistogramVec testHistogramVec ["batman", "joker"]
      ⟨heroDesc "test_histogram",
        ⟨[("hero", "batman"), ("villain", "joker")], none, none, none, none,
          some ⟨2, float64.ofNat 30⟩⟩⟩
      rfl rfl).2.1 1 (by decide!) (by decide)).trans (by decide!),
   (((sample_assertions_spec goFmt textRegistry [] 1 float64.NaN).1
      (histogramOf "test_histogram" 1 float64.NaN) rfl).2.1 2 (by decide)).trans (by decide!),
   (((sample_assertions_spec goFmt textRegistry [] 1 float64.NaN).1
      (histogramOf "test_histogram" 1 float64.NaN) rfl).2.2 1 (float64.ofNat 30) (by decide)
      (by decide!)).trans (by decide!),
   (sample_assertions_spec goFmt textRegistry [] 2 (float64.ofNat 30)).2.2.2.2 1
      (by decide) (by decide) (by decide)⟩

/-- C3 (counterexample): a histogram and a summary whose one observation was NaN, asserted at
`(1, NaN)`, their own count and sum, each get a "Sample sum not equal" failure instead of none,
and so does a histogram vector child in that state; asserted at the wrong count 2 with `sum` =
NaN, the vector child gets two failures instead of one. -/
theorem sample_assertions_NaN :
    AssertHistogramSamples goFmt [] 1 float64.NaN
        (histogramOf "test_histogram" 1 float64.NaN).asCollector
        = .returned ["Sample sum not equal:\nexpected: NaN\nactual  : NaN"]
    ∧ AssertSummarySamples goFmt [] 1 float64.NaN
        (summaryOf "test_summary" 1 float64.NaN).asCollector
        = .returned ["Sample sum not equal:\nexpected: NaN\nactual  : NaN"]
    ∧ AssertHistogramVecSamples goFmt textRegistry [] 1 float64.NaN
        ⟨heroDesc "test_histogram",
          [(["batman", "joker"], ⟨heroDesc "test_histogram",
            ⟨[("hero", "batman"), ("villain", "joker")], none, none, none, none,
              some ⟨1, float64.NaN⟩⟩⟩)]⟩
        ["batman", "joker"]
        = .returned ["Sample sum not equal:\nexpected: NaN\nactual  : NaN\n\nmetric:\ntest_histogram_sum\x7bhero=\"batman\",villain=\"joker\"\x7d NaN\ntest_histogram_count\x7bhero=\"batman\",villain=\"joker\"\x7d 1"]
    ∧ AssertHistogramVecSamples goFmt textRegistry [] 2 float64.NaN
        ⟨heroDesc "test_histogram",
          [(["batman", "joker"], ⟨heroDesc "test_histogram",
            ⟨[("hero", "batman"), ("villain", "joker")], none, none, none, none,
              some ⟨1, float64.NaN⟩⟩⟩)]⟩
        ["batman", "joker"]
        = .returned ["Sample count not equal:\nexpected: 2\nactual  : 1\n\nmetric:\ntest_histogram_sum\x7bhero=\"batman\",villain=\"joker\"\x7d NaN\ntest_histogram_count\x7bhero=\"batman\",villain=\"joker\"\x7d 1",
          "Sample sum not equal:\nexpected: NaN\nactual  : NaN\n\nmetric:\ntest_histogram_sum\x7bhero=\"batman\",villain=\"joker\"\x7d NaN\ntest_histogram_count\x7bhero=\"batman\",villain=\"joker\"\x7d 1"] := by
  decide!

/-- C4 (the code at the failing input): a histogram and a summary with two observations summing
to 30, asserted at count 1 and sum 42, both wrong: each assertion makes one `Errorf` call, for
the count, and returns before the sum is compared. -/
theorem AssertHistogramSamples_both_wrong :
    AssertHistogramSamples goFmt [] 1 (float64.ofNat 42)
        (histogramOf "test_histogram" 2 (float64.ofNat 30)).asCollector
        = .returned ["Sample count not equal:\nexpected: 1\nactual  : 2"]
    ∧ AssertSummarySamples goFmt [] 1 (float64.ofNat 42)
        (summaryOf "test_summary" 2 (float64.ofNat 30)).asCollector
        = .returned ["Sample count not equal:\nexpected: 1\nactual  : 2"] := by
  decide!

/-- C5: for a histogram or summary vector and labels that resolve to a child with `N`
observations summing to `S`, asserting a count different from `N` (compared as
`uint64(count)`) and a sum different from `S` makes exactly two `Errorf` calls, "Sample count
not equal" first and "Sample sum not equal" second; both messages end with the same text, the
filtered result of `ToExpVar` on the vector, and the collector handed to `ToExpVar` holds every
child of the vector. -/
theorem sample_vec_both_wrong {MF : Type} (f : Fmt) (reg : Registry MF) (t : TestingT)
    (N : Nat) (S : float64) (count : Int) (sum : float64) (labels : List String) (m : Metric)
    (hc : uint64 count ≠ N) (hs : float64.ne S sum = true) :
    (∀ v v1 : HistogramVec, v.GetMetricWithLabelValues labels = .ok (m, v1) →
      m.Write.Histogram = some ⟨N, S⟩ →
      AssertHistogramVecSamples f reg t count sum v labels
        = .returned (t ++
          ["Sample count not equal:\nexpected: " ++ fmtD count ++ "\nactual  : " ++ fmtD N
            ++ "\n\nmetric:\n" ++ filterSampleSumAndCount (expvarOrError reg v1.asCollector),
           "Sample sum not equal:\nexpected: " ++ f.g sum ++ "\nactual  : " ++ f.g S
            ++ "\n\nmetric:\n" ++ filterSampleSumAndCount (expvarOrError reg v1.asCollector)])
      ∧ ∀ child ∈ v.metrics, child.2 ∈ v1.asCollector.Collect)
    ∧ (∀ v v1 : SummaryVec, v.GetMetricWithLabelValues labels = .ok (m, v1) →
      m.Write.Summary = some ⟨N, S⟩ →
      AssertSummaryVecSamples f reg t count sum v labels
        = .returned (t ++
          ["Sample count not equal:\nexpected: " ++ fmtD count ++ "\nactual  : " ++ fmtD N
            ++ "\n\nmetric:\n" ++ filterSampleSumAndCount (expvarOrError reg v1.asCollector),
           "Sample sum not equal:\nexpected: " ++ f.g sum ++ "\nactual  : " ++ f.g S
            ++ "\n\nmetric:\n"
            ++ filterSampleSumAndCount (expvarOrError reg v1.asCollector)])
      ∧ ∀ child ∈ v.metrics, child.2 ∈ v1.asCollector.Collect) := by
  constructor
  · intro v v1 hv hm
    refine ⟨?_, (lookup_children v v1 labels m hv).2⟩
    simp only [AssertHistogramVecSamples_eval f reg t _ _ v v1 labels m hv, hm, GetSampleCount,
      GetSampleSum]
    rw [assertHistogramVec_both f reg t count N sum S _ hc hs]
    simp [countVecMsg, sumVecMsg]
  · intro v v1 hv hm
    refine ⟨?_, (lookup_children v v1 labels m hv).2⟩
    simp only [AssertSummaryVecSamples_eval f reg t _ _ v v1 labels m hv, hm, GetSampleCount,
      GetSampleSum]
    rw [assertHistogramVec_both f reg t count N sum S _ hc hs]
    simp [countVecMsg, sumVecMsg]

/-- C5 (instance): the histogram vector of the test file, the child `batman`, `joker` with two
observations summing to 30, asserted at count 1 and sum 42. -/
theorem sample_vec_both_wrong_witness :
    AssertHistogramVecSamples goFmt textRegistry [] 1 (float64.ofNat 42) testHistogramVec
        ["batman", "joker"]
      = .returned
        ["Sample count not equal:\nexpected: 1\nactual  : 2\n\nmetric:\ntest_histogram_sum\x7bhero=\"batman\",villain=\"joker\"\x7d 30\ntest_histogram_count\x7bhero=\"batman\",villain=\"joker\"\x7d 2\ntest_histogram_sum\x7bhero=\"superman\",villain=\"lex luthor\"\x7d 10\ntest_histogram_count\x7bhero=\"superman\",villain=\"lex luthor\"\x7d 1",
         "Sample sum not equal:\nexpected: 42\nactual  : 30\n\nmetric:\ntest_histogram_sum\x7bhero=\"batman\",villain=\"joker\"\x7d 30\ntest_histogram_count\x7bhero=\"batman\",villain=\"joker\"\x7d 2\ntest_histogram_sum\x7bhero=\"superman\",villain=\"lex luthor\"\x7d 10\ntest_histogram_count\x7bhero=\"superman\",villain=\"lex luthor\"\x7d 1"] :=
  ((sample_vec_both_wrong goFmt textRegistry [] 2 (float64.ofNat 30) 1 (float64.ofNat 42)
      ["batman", "joker"]
      ⟨heroDesc "test_histogram",
        ⟨[("hero", "batman"), ("villain", "joker")], none, none, none, none,
          some ⟨2, float64.ofNat 30⟩⟩⟩
      (by decide) (by decide!)).1 testHistogramVec testHistogramVec rfl rfl).1.trans (by decide!)

/-! ## Checks of the float64 model on known sums -/

/-- Known float64 sums: `10 + 1 = 11`; `2^53 + 1 = 2^53`; `0.1 + 0.2` is the float64 printed as
`0.30000000000000004`; infinity plus one is infinity; `-1 + 1` is positive zero; NaN compares
unequal to itself and the two zeros compare equal. -/
theorem float64_checks :
    float64.add (float64.ofNat 10) float64.one = float64.ofNat 11
    ∧ float64.add (float64.ofNat 9007199254740992) float64.one
        = float64.ofNat 9007199254740992
    ∧ float64.add ⟨false, 1019, 2702159776422298⟩ ⟨false, 1020, 2702159776422298⟩
        = ⟨false, 1021, 900719925474100⟩
    ∧ float64.add (float64.Inf false) float64.one = float64.Inf false
    ∧ float64.add ⟨true, 1023, 0⟩ float64.one = float64.zero
    ∧ float64.ofNat 1 = float64.one
    ∧ float64.ne float64.NaN float64.NaN = true
    ∧ float64.eq float64.zero float64.negZero = true := by
  decide!

/-- C9 (instance): the exposition of a histogram named `h`: the lines of the output are the
`_sum` and `_count` lines, and the bucket line, which has no such occurrence, is not among
them. -/
theorem filterSampleSumAndCount_lines_witness :
    ("h_sum 3".data ∈ Split "# TYPE h histogram\nh_bucket\x7ble=\"1\"\x7d 0\nh_sum 3\nh_count 1\n".data '\n'
      ∧ mentionsSumOrCount "h_sum 3".data)
    ∧ "h_bucket\x7ble=\"1\"\x7d 0".data ∉ outputLines (filterSampleSumAndCount
        "# TYPE h histogram\nh_bucket\x7ble=\"1\"\x7d 0\nh_sum 3\nh_count 1\n") :=
  ⟨(filterSampleSumAndCount_lines
      "# TYPE h histogram\nh_bucket\x7ble=\"1\"\x7d 0\nh_sum 3\nh_count 1\n").1
      "h_sum 3".data (by decide),
   (filterSampleSumAndCount_lines
      "# TYPE h histogram\nh_bucket\x7ble=\"1\"\x7d 0\nh_sum 3\nh_count 1\n").2
      "h_bucket\x7ble=\"1\"\x7d 0".data (by decide)⟩

/-- C10 (instance): a text none of whose lines mentions a sum or count series is filtered to
the empty string. -/
theorem filterSampleSumAndCount_refines_witness :
    filterSampleSumAndCount "# TYPE c counter\nc 1\n" = "" :=
  (filterSampleSumAndCount_refines "# TYPE c counter\nc 1\n").2.2.1 (by decide)

end Metrictest
